import Mathlib

/-
Verification of the loyalty-program list endpoint.

This file is a shallow embedding of src/loyalty_app/views.py (the function
list_entries together with the module-level allow lists) and of the parts of
the Django library the view calls into (QueryDict lookup, parse_date,
field value coercion for filter predicates, Paginator.get_page), over the
data model of src/loyalty_app/models.py.  Query sets are modelled as lists
of user records; filters over the multi-valued reverse relation are
modelled existentially (a user passes when some related row matches);
fallible steps return Except values mirroring the try/except blocks of the
view.
-/

namespace LoyaltyApp

/-! ## Python string primitives -/

/-- Embedding of Python's str.join: sep.join(l). -/
def pyJoin (sep : String) : List String → String
  | [] => ""
  | [x] => x
  | x :: y :: rest => x ++ sep ++ pyJoin sep (y :: rest)

/-- Value of a nonempty list of decimal digit characters; none when the list
is empty or contains a non-digit. -/
def digitsVal : List Char → Option Nat
  | [] => none
  | cs =>
    cs.foldl
      (fun acc c =>
        match acc with
        | none => none
        | some n => if c.isDigit then some (10 * n + (c.toNat - 48)) else none)
      (some 0)

/-- Embedding of Python's int(str): an optional sign followed by at least one
decimal digit; any other shape raises ValueError, modelled as none. -/
def pyInt (s : String) : Option Int :=
  match s.data with
  | '-' :: rest => (digitsVal rest).map fun n => -(n : Int)
  | '+' :: rest => (digitsVal rest).map fun n => (n : Int)
  | cs => (digitsVal cs).map fun n => (n : Int)

/-! ## Dates and datetimes -/

/-- Calendar date, as Python's datetime.date. -/
structure PyDate where
  year : Nat
  month : Nat
  day : Nat
deriving DecidableEq, Repr

/-- Instant, as Python's datetime.datetime: a date plus seconds in the day. -/
structure PyDateTime where
  date : PyDate
  sec : Nat
deriving DecidableEq, Repr

def isLeapYear (y : Nat) : Bool :=
  (y % 4 == 0 && y % 100 != 0) || y % 400 == 0

def daysInMonth (y m : Nat) : Nat :=
  if m == 2 then (if isLeapYear y then 29 else 28)
  else if m == 4 || m == 6 || m == 9 || m == 11 then 30
  else 31

/-- Validity check performed by the datetime.date constructor. -/
def validDate (y m d : Nat) : Bool :=
  1 ≤ y && 1 ≤ m && m ≤ 12 && 1 ≤ d && d ≤ daysInMonth y m

/-- Lexicographic order on dates (datetime.date comparison). -/
def dateLE (a b : PyDate) : Bool :=
  a.year < b.year ||
    (a.year == b.year &&
      (a.month < b.month || (a.month == b.month && a.day ≤ b.day)))

def dateTimeLE (a b : PyDateTime) : Bool :=
  (dateLE a.date b.date && a.date != b.date) || (a.date == b.date && a.sec ≤ b.sec)

/-- Outcome of django.utils.dateparse.parse_date: a date, None when the
string does not match the date format, or a raised ValueError when it
matches the format but is not a valid calendar date. -/
inductive DateParse where
  | ok (d : PyDate)
  | noMatch
  | invalid
deriving DecidableEq, Repr

/-- Splitting of a character list at every occurrence of a separator, as
Python's str.split with a one-character separator. -/
def splitOnChar (c : Char) : List Char → List (List Char)
  | [] => [[]]
  | x :: rest =>
    match splitOnChar c rest with
    | [] => if x == c then [[], []] else [[x]]
    | g :: gs => if x == c then [] :: g :: gs else (x :: g) :: gs

/-- Component of the date format: a digit group of length between lo and hi. -/
def digitGroup (lo hi : Nat) (cs : List Char) : Option Nat :=
  if lo ≤ cs.length && cs.length ≤ hi && cs.all Char.isDigit then
    digitsVal cs
  else none

/-- Embedding of django.utils.dateparse.parse_date on the characters of the
value: the accepted shape is year-month-day with a 4-digit year and 1- or
2-digit month and day; a format mismatch yields None (noMatch) and an
out-of-range component raises ValueError (invalid). -/
def parse_date_chars (cs : List Char) : DateParse :=
  match splitOnChar '-' cs with
  | [ys, ms, ds] =>
    match digitGroup 4 4 ys, digitGroup 1 2 ms, digitGroup 1 2 ds with
    | some y, some m, some d =>
      if validDate y m d then .ok ⟨y, m, d⟩ else .invalid
    | _, _, _ => .noMatch
  | _ => .noMatch

/-- Embedding of django.utils.dateparse.parse_date. -/
def parse_date (s : String) : DateParse :=
  parse_date_chars s.data

/-- Time-of-day parser used by parse_datetime: hour:minute or
hour:minute:second, returning seconds in the day; none on format mismatch
or out-of-range component. -/
def parseTimePart (cs : List Char) : Option Nat :=
  match splitOnChar ':' cs with
  | [hs, ms] =>
    match digitGroup 1 2 hs, digitGroup 2 2 ms with
    | some h, some m => if h < 24 && m < 60 then some (h * 3600 + m * 60) else none
    | _, _ => none
  | [hs, ms, ss] =>
    match digitGroup 1 2 hs, digitGroup 2 2 ms, digitGroup 2 2 ss with
    | some h, some m, some sec =>
      if h < 24 && m < 60 && sec < 60 then some (h * 3600 + m * 60 + sec) else none
    | _, _, _ => none
  | _ => none

/-- Embedding of the string-to-datetime coercion DateTimeField.to_python
performs on a filter value: first a datetime shape (date, a space or T
separator, time of day), else a plain date taken at midnight, else a raised
ValidationError (none). -/
def strToDateTime (s : String) : Option PyDateTime :=
  let parts :=
    if (splitOnChar ' ' s.data).length == 2 then splitOnChar ' ' s.data
    else splitOnChar 'T' s.data
  match parts with
  | [dpart, tpart] =>
    match parse_date_chars dpart, parseTimePart tpart with
    | .ok d, some t => some ⟨d, t⟩
    | _, _ => none
  | _ =>
    match parse_date_chars s.data with
    | .ok d => some ⟨d, 0⟩
    | _ => none

/-! ## Data model (src/loyalty_app/models.py) -/

/-- Model Address of models.py; id is the implicit primary key. -/
structure Address where
  id : Int
  street : String
  street_number : String
  city_code : String
  city : String
  country : String
deriving DecidableEq, Repr

/-- Model AppUser of models.py; the address field holds the id of the
referenced Address row. -/
structure AppUser where
  id : Int
  first_name : String
  last_name : String
  gender : String
  customer_id : String
  phone_number : String
  created : PyDateTime
  address : Int
  birthday : PyDate
  last_updated : PyDateTime
deriving DecidableEq, Repr

/-- Model CustomerRelationship of models.py; appuser holds the id of the
referenced AppUser row. -/
structure CustomerRelationship where
  id : Int
  appuser : Int
  points : Int
  created : PyDateTime
  last_activity : PyDateTime
deriving DecidableEq, Repr

/-- Database state: the three tables, each in its storage order. -/
structure DB where
  addresses : List Address
  users : List AppUser
  relationships : List CustomerRelationship
deriving Repr

/-! ## Field-name allow lists (views.py lines 70-116) -/

/-- Set ALLOWED_PARAMETERS of views.py. -/
def ALLOWED_PARAMETERS : List String :=
  ["page", "page_size", "sort_by", "order",
   "id", "first_name", "last_name", "gender", "customer_id", "phone_number",
   "appuser_created", "appuser_created_after", "appuser_created_before",
   "birthday", "last_updated", "last_updated_after", "last_updated_before",
   "address_id", "street", "street_number", "city_code", "city", "country",
   "relationship_id", "points",
   "relationship_created", "relationship_created_after", "relationship_created_before",
   "last_activity", "last_activity_after", "last_activity_before"]

/-- Names returned by get_model_fields(AppUser), i.e. the names of
AppUser._meta.get_fields(): the reverse relation to CustomerRelationship
first, then the concrete fields in declaration order (with the implicit
id primary key first). -/
def appuser_fields : List String :=
  ["customerrelationship", "id", "first_name", "last_name", "gender",
   "customer_id", "phone_number", "created", "address", "birthday", "last_updated"]

/-- Names of Address._meta.get_fields(): the reverse relation to AppUser,
then id and the concrete fields. -/
def address_field_names : List String :=
  ["appuser", "id", "street", "street_number", "city_code", "city", "country"]

/-- Names of CustomerRelationship._meta.get_fields(): id and the concrete
fields in declaration order (no reverse relations point here). -/
def customerrelationship_field_names : List String :=
  ["id", "appuser", "points", "created", "last_activity"]

/-- Variable address_fields of views.py line 112. -/
def address_fields : List String :=
  address_field_names.map fun f => "address__" ++ f

/-- Variable customerrelationship_fields of views.py line 113. -/
def customerrelationship_fields : List String :=
  customerrelationship_field_names.map fun f => "customerrelationship__" ++ f

/-- Variable all_sortable_fields of views.py line 116. -/
def all_sortable_fields : List String :=
  appuser_fields ++ address_fields ++ customerrelationship_fields

/-- Class attributes of AppUser probed by hasattr(AppUser, field) in the
filter loop.  Of the keys that can reach the loop (members of
ALLOWED_PARAMETERS), hasattr holds exactly for the concrete field names
below: the reverse relation is exposed as customerrelationship_set, not as
an attribute named after a loop key. -/
def appUserAttrs : List String :=
  ["id", "first_name", "last_name", "gender", "customer_id", "phone_number",
   "created", "address", "birthday", "last_updated"]

/-- Class attributes of Address probed by hasattr(Address, field),
restricted as for appUserAttrs. -/
def addressAttrs : List String :=
  ["id", "street", "street_number", "city_code", "city", "country"]

/-- Class attributes of CustomerRelationship probed by
hasattr(CustomerRelationship, field), restricted as for appUserAttrs. -/
def customerRelationshipAttrs : List String :=
  ["id", "appuser", "points", "created", "last_activity"]

/-! ## Requests -/

/-- Query string of a request: key-value pairs in order.  This models a
QueryDict whose keys are distinct (general theorems assume distinct keys;
Python's QueryDict would keep the last value of a repeated key). -/
abbrev Request := List (String × String)

/-- Embedding of request.GET.get(k): the value of key k, if present. -/
def getParam (req : Request) (k : String) : Option String :=
  (req.find? fun p => p.1 == k).map Prod.snd

/-- Embedding of request.GET.get(k, d). -/
def getParamD (req : Request) (k : String) (d : String) : String :=
  (getParam req k).getD d

/-- Embedding of views.py line 136: the filters dict, i.e. the query
parameters other than sort_by, order, page and page_size, in request
order. -/
def filtersOf (req : Request) : Request :=
  req.filter fun p => !(["sort_by", "order", "page", "page_size"].contains p.1)

/-- Embedding of int(request.GET.get("page", 1)) (views.py line 140); none
models the ValueError branch. -/
def pageOf (req : Request) : Option Int :=
  match getParam req "page" with
  | none => some 1
  | some v => pyInt v

/-- Embedding of int(request.GET.get("page_size", 10)) (views.py line
141). -/
def page_sizeOf (req : Request) : Option Int :=
  match getParam req "page_size" with
  | none => some 10
  | some v => pyInt v

/-! ## Filter predicates (views.py lines 162-181)

Each queryset.filter call first coerces the string value through the target
field (raising on failure, modelled as Except.error) and then keeps the
rows satisfying the predicate.  An iexact lookup is case-insensitive
equality on text fields and plain equality after coercion on integer, date
and datetime fields. -/

/-- Lower-casing of a string, character by character. -/
def lowerStr (s : String) : String :=
  ⟨s.data.map Char.toLower⟩

/-- Case-insensitive exact match, Django's iexact on a text field. -/
def iexactStr (fieldVal v : String) : Bool :=
  lowerStr fieldVal == lowerStr v

/-- Coercion of a filter value by an integer field; failure raises. -/
def intOfValue (v : String) : Except Unit Int :=
  match pyInt v with
  | some n => .ok n
  | none => .error ()

/-- Coercion of a filter value by a DateTimeField; failure raises. -/
def dateTimeOfValue (v : String) : Except Unit PyDateTime :=
  match strToDateTime v with
  | some t => .ok t
  | none => .error ()

/-- Coercion of a filter value by a DateField (to_python: parse_date, any
failure becomes a ValidationError); failure raises. -/
def dateOfValue (v : String) : Except Unit PyDate :=
  match parse_date v with
  | .ok d => .ok d
  | _ => .error ()

/-- Predicate of filter(field__iexact=v) on an AppUser row, per field type
(views.py line 168).  Fields not named here never reach this branch: the
branch is guarded by membership in appUserAttrs. -/
def userPred (field v : String) : Except Unit (AppUser → Bool) :=
  match field with
  | "id" => (intOfValue v).map fun n u => u.id == n
  | "first_name" => .ok fun u => iexactStr u.first_name v
  | "last_name" => .ok fun u => iexactStr u.last_name v
  | "gender" => .ok fun u => iexactStr u.gender v
  | "customer_id" => .ok fun u => iexactStr u.customer_id v
  | "phone_number" => .ok fun u => iexactStr u.phone_number v
  | "created" => (dateTimeOfValue v).map fun t u => u.created == t
  | "address" => (intOfValue v).map fun n u => u.address == n
  | "birthday" => (dateOfValue v).map fun d u => u.birthday == d
  | "last_updated" => (dateTimeOfValue v).map fun t u => u.last_updated == t
  | _ => .ok fun _ => true

/-- Predicate of filter(address__field__iexact=v) on an Address row
(views.py line 171). -/
def addressPred (field v : String) : Except Unit (Address → Bool) :=
  match field with
  | "id" => (intOfValue v).map fun n a => a.id == n
  | "street" => .ok fun a => iexactStr a.street v
  | "street_number" => .ok fun a => iexactStr a.street_number v
  | "city_code" => .ok fun a => iexactStr a.city_code v
  | "city" => .ok fun a => iexactStr a.city v
  | "country" => .ok fun a => iexactStr a.country v
  | _ => .ok fun _ => true

/-- Predicate of filter(customerrelationship__field__iexact=v) on a
CustomerRelationship row (views.py line 177). -/
def relPred (field v : String) : Except Unit (CustomerRelationship → Bool) :=
  match field with
  | "id" => (intOfValue v).map fun n r => r.id == n
  | "appuser" => (intOfValue v).map fun n r => r.appuser == n
  | "points" => (intOfValue v).map fun n r => r.points == n
  | "created" => (dateTimeOfValue v).map fun t r => r.created == t
  | "last_activity" => (dateTimeOfValue v).map fun t r => r.last_activity == t
  | _ => .ok fun _ => true

/-- The relationships of a user, in storage order (the reverse relation
customerrelationship_set). -/
def relsOf (db : DB) (u : AppUser) : List CustomerRelationship :=
  db.relationships.filter fun r => r.appuser == u.id

/-- The address rows joined to a user through its foreign key (zero or one
under referential integrity). -/
def addrsOf (db : DB) (u : AppUser) : List Address :=
  db.addresses.filter fun a => a.id == u.address

/-- Routing of one filter key to a user-level predicate, mirroring the
if/elif chain of views.py lines 164-178: address_id first, then AppUser
attributes, then Address attributes, then relationship_id, then
CustomerRelationship attributes; an unmatched key contributes nothing.
Filters across the multi-valued reverse relation hold when some related
row matches; filters across the address join hold when the joined address
row matches. -/
def loopPred (db : DB) (field v : String) : Except Unit (AppUser → Bool) :=
  if field == "address_id" then
    (intOfValue v).map fun n u => u.address == n
  else if appUserAttrs.contains field then
    userPred field v
  else if addressAttrs.contains field then
    (addressPred field v).map fun p u => (addrsOf db u).any p
  else if field == "relationship_id" then
    (intOfValue v).map fun n u => db.relationships.any fun r => r.appuser == u.id && r.id == n
  else if customerRelationshipAttrs.contains field then
    (relPred field v).map fun p u => (relsOf db u).any p
  else
    .ok fun _ => true

/-- The filter loop of views.py lines 163-178: successive filter calls, one
per entry of the filters dict, each a list filtration by its routed
predicate; the first coercion failure aborts the loop. -/
def applyLoopFilters (db : DB) : Request → List AppUser → Except Unit (List AppUser)
  | [], qs => .ok qs
  | kv :: rest, qs =>
    match loopPred db kv.1 kv.2 with
    | .error e => .error e
    | .ok p => applyLoopFilters db rest (qs.filter p)

/-! ## Date-range section (views.py lines 183-278)

Each date parameter is read with request.GET.get, skipped when absent or
empty (Python truthiness), parsed with parse_date, skipped again when the
parse yields None, applied when it yields a date, and raises when the
string matches the format but is not a valid date.  The four range bounds
on the relationship are collected into the date_filters dict and applied
in one filter call at the end, so a single related row must satisfy all of
them. -/

/-- One exact or range date filter on an AppUser column. -/
def userDateStep (req : Request) (key : String) (p : PyDate → AppUser → Bool)
    (qs : List AppUser) : Except Unit (List AppUser) :=
  match getParam req key with
  | none => .ok qs
  | some v =>
    if v == "" then .ok qs
    else
      match parse_date v with
      | .ok d => .ok (qs.filter (p d))
      | .noMatch => .ok qs
      | .invalid => .error ()

/-- One immediately applied date filter across the relationship join. -/
def relDateStep (db : DB) (req : Request) (key : String)
    (p : PyDate → CustomerRelationship → Bool) (qs : List AppUser) :
    Except Unit (List AppUser) :=
  match getParam req key with
  | none => .ok qs
  | some v =>
    if v == "" then .ok qs
    else
      match parse_date v with
      | .ok d => .ok (qs.filter fun u => (relsOf db u).any (p d))
      | .noMatch => .ok qs
      | .invalid => .error ()

/-- Collection of one bound into the date_filters dict. -/
def collectRelCond (req : Request) (key : String)
    (p : PyDate → CustomerRelationship → Bool)
    (conds : List (CustomerRelationship → Bool)) :
    Except Unit (List (CustomerRelationship → Bool)) :=
  match getParam req key with
  | none => .ok conds
  | some v =>
    if v == "" then .ok conds
    else
      match parse_date v with
      | .ok d => .ok (conds ++ [p d])
      | .noMatch => .ok conds
      | .invalid => .error ()

/-- Re-application of the relationship_id filter (views.py lines 185-188). -/
def relIdStep (db : DB) (req : Request) (qs : List AppUser) :
    Except Unit (List AppUser) :=
  match getParam req "relationship_id" with
  | none => .ok qs
  | some v =>
    if v == "" then .ok qs
    else
      (intOfValue v).map fun n =>
        qs.filter fun u => db.relationships.any fun r => r.appuser == u.id && r.id == n

/-- The whole second try block of views.py (lines 183-281), in source
order. -/
def dateSection (db : DB) (req : Request) (qs0 : List AppUser) :
    Except Unit (List AppUser) := do
  let qs ← relIdStep db req qs0
  let qs ← userDateStep req "appuser_created" (fun d u => u.created.date == d) qs
  let qs ← userDateStep req "appuser_created_after" (fun d u => dateLE d u.created.date) qs
  let qs ← userDateStep req "appuser_created_before" (fun d u => dateLE u.created.date d) qs
  let qs ← relDateStep db req "relationship_created" (fun d r => r.created.date == d) qs
  let conds ← collectRelCond req "relationship_created_after" (fun d r => dateLE d r.created.date) []
  let conds ← collectRelCond req "relationship_created_before" (fun d r => dateLE r.created.date d) conds
  let qs ← userDateStep req "last_updated" (fun d u => u.last_updated.date == d) qs
  let qs ← userDateStep req "last_updated_after" (fun d u => dateLE d u.last_updated.date) qs
  let qs ← userDateStep req "last_updated_before" (fun d u => dateLE u.last_updated.date d) qs
  let qs ← relDateStep db req "last_activity" (fun d r => r.last_activity.date == d) qs
  let conds ← collectRelCond req "last_activity_after" (fun d r => dateLE d r.last_activity.date) conds
  let conds ← collectRelCond req "last_activity_before" (fun d r => dateLE r.last_activity.date d) conds
  if conds.isEmpty then return qs
  else return qs.filter fun u => (relsOf db u).any fun r => conds.all fun c => c r

/-! ## Sorting (views.py lines 153-155 and 285) -/

/-- Value a user exposes under a sortable column. -/
inductive SVal where
  | int (v : Int)
  | str (v : String)
  | date (v : PyDate)
  | dt (v : PyDateTime)
  | nil
deriving DecidableEq, Repr

def svalRank : SVal → Nat
  | .nil => 0
  | .int _ => 1
  | .str _ => 2
  | .date _ => 3
  | .dt _ => 4

/-- Total comparison on sort values: within a kind the natural order,
across kinds the rank order (a fixed key always yields one kind, so the
cross-kind case only separates present from absent join rows). -/
def svalLE (a b : SVal) : Bool :=
  match a, b with
  | .int x, .int y => x ≤ y
  | .str x, .str y => decide (x ≤ y)
  | .date x, .date y => dateLE x y
  | .dt x, .dt y => dateTimeLE x y
  | _, _ => svalRank a ≤ svalRank b

/-- First row of a joined one-to-many column, or nil: the sort column a
user exposes through a join.  This abstracts the order the database would
give the joined rows. -/
def joinedSVal {β : Type} (rows : List β) (f : β → SVal) : SVal :=
  match rows.head? with
  | some x => f x
  | none => .nil

/-- Sort column of a user for each member of all_sortable_fields (the keys
order_by can receive).  The relation-valued keys customerrelationship and
address__appuser are abstracted to nil. -/
def sortValue (db : DB) (key : String) (u : AppUser) : SVal :=
  match key with
  | "id" => .int u.id
  | "first_name" => .str u.first_name
  | "last_name" => .str u.last_name
  | "gender" => .str u.gender
  | "customer_id" => .str u.customer_id
  | "phone_number" => .str u.phone_number
  | "created" => .dt u.created
  | "address" => .int u.address
  | "birthday" => .date u.birthday
  | "last_updated" => .dt u.last_updated
  | "address__id" => joinedSVal (addrsOf db u) fun a => .int a.id
  | "address__street" => joinedSVal (addrsOf db u) fun a => .str a.street
  | "address__street_number" => joinedSVal (addrsOf db u) fun a => .str a.street_number
  | "address__city_code" => joinedSVal (addrsOf db u) fun a => .str a.city_code
  | "address__city" => joinedSVal (addrsOf db u) fun a => .str a.city
  | "address__country" => joinedSVal (addrsOf db u) fun a => .str a.country
  | "customerrelationship__id" => joinedSVal (relsOf db u) fun r => .int r.id
  | "customerrelationship__appuser" => joinedSVal (relsOf db u) fun r => .int r.appuser
  | "customerrelationship__points" => joinedSVal (relsOf db u) fun r => .int r.points
  | "customerrelationship__created" => joinedSVal (relsOf db u) fun r => .dt r.created
  | "customerrelationship__last_activity" => joinedSVal (relsOf db u) fun r => .dt r.last_activity
  | _ => .nil

/-- Embedding of queryset.order_by(key): a leading minus sign sorts by the
reversed comparison on the named column, otherwise ascending. -/
def order_by (db : DB) (key : String) (l : List AppUser) : List AppUser :=
  match key.data with
  | '-' :: rest =>
    l.mergeSort fun a b => svalLE (sortValue db ⟨rest⟩ b) (sortValue db ⟨rest⟩ a)
  | _ =>
    l.mergeSort fun a b => svalLE (sortValue db key a) (sortValue db key b)

/-! ## Pagination (django.core.paginator, views.py lines 288-289)

Paginator(queryset, page_size) with the default options orphans equal 0
and allow_empty_first_page equal True.  num_pages is
ceil(max(1, count) / per_page); validate_number raises EmptyPage below 1
or beyond num_pages (except an allowed empty first page); get_page maps
EmptyPage to the last page and revalidates; a zero per_page raises
ZeroDivisionError inside num_pages and a negative slice bound raises
ValueError in queryset slicing, neither of which get_page catches. -/

/-- Ceiling division as Python's math.ceil of true division. -/
def pyCeilDiv (a b : Int) : Int := -((-a).fdiv b)

/-- Paginator.num_pages (orphans is 0, allow_empty_first_page is True). -/
def num_pages_val (count : Nat) (per_page : Int) : Int :=
  pyCeilDiv ((max 1 count : Nat) : Int) per_page

/-- Failures inside pagination: EmptyPage, which get_page catches, against
the fatal ZeroDivisionError and ValueError, which it does not. -/
inductive PagErr where
  | empty
  | fatal
deriving DecidableEq, Repr

/-- Paginator.validate_number for an int argument. -/
def validate_number (count : Nat) (per_page number : Int) : Except PagErr Int :=
  if number < 1 then .error .empty
  else if per_page == 0 then .error .fatal
  else if number > num_pages_val count per_page then
    (if number == 1 then .ok number else .error .empty)
  else .ok number

/-- Slice of a queryset: negative bounds raise, otherwise the elements with
indices in the half-open range. -/
def qsSlice {α : Type} (l : List α) (b t : Int) : Except PagErr (List α) :=
  if b < 0 || t < 0 then .error .fatal
  else .ok ((l.drop b.toNat).take (t.toNat - b.toNat))

/-- Paginator.page: revalidate, compute bottom and top (top clamped to the
count when it reaches past it), slice. -/
def paginator_page (l : List AppUser) (per_page number : Int) :
    Except PagErr (List AppUser) :=
  match validate_number l.length per_page number with
  | .error e => .error e
  | .ok n =>
    qsSlice l ((n - 1) * per_page)
      (if (n - 1) * per_page + per_page ≥ (l.length : Int) then (l.length : Int)
       else (n - 1) * per_page + per_page)

/-- Paginator.get_page: an EmptyPage from the first validation is replaced
by the last page number (evaluating num_pages can itself raise when
per_page is 0); the page method then revalidates. -/
def get_page (l : List AppUser) (per_page number : Int) :
    Except PagErr (List AppUser) :=
  match validate_number l.length per_page number with
  | .ok n => paginator_page l per_page n
  | .error .empty =>
    if per_page == 0 then .error .fatal
    else paginator_page l per_page (num_pages_val l.length per_page)
  | .error .fatal => .error .fatal

/-! ## Serialization (views.py lines 294-330) -/

/-- JSON-like value produced by the serializer. -/
inductive JVal where
  | s (v : String)
  | i (v : Int)
  | date (v : PyDate)
  | dt (v : PyDateTime)
  | obj (fields : List (String × JVal))
  | arr (items : List JVal)

/-- Keys of a serialized object. -/
def jvalKeys : JVal → List String
  | .obj fields => fields.map Prod.fst
  | _ => []

/-- Serialized relationship entry (views.py lines 318-323). -/
def serializeRel (r : CustomerRelationship) : JVal :=
  .obj [("relationship_id", .i r.id), ("points", .i r.points),
        ("created", .dt r.created), ("last_activity", .dt r.last_activity)]

/-- Serialized address entry (views.py lines 309-316). -/
def serializeAddress (a : Address) : JVal :=
  .obj [("address_id", .i a.id), ("street", .s a.street),
        ("street_number", .s a.street_number), ("city_code", .s a.city_code),
        ("city", .s a.city), ("country", .s a.country)]

/-- Serialized user entry (views.py lines 298-327); accessing the related
address of a user with no matching address row raises, which the caller
maps to the 500 response. -/
def serializeUser (db : DB) (u : AppUser) : Except Unit JVal :=
  match db.addresses.find? (fun a => a.id == u.address) with
  | none => .error ()
  | some a =>
    .ok (.obj
      [("id", .i u.id), ("first_name", .s u.first_name),
       ("last_name", .s u.last_name), ("gender", .s u.gender),
       ("customer_id", .s u.customer_id), ("phone_number", .s u.phone_number),
       ("created", .dt u.created), ("birthday", .date u.birthday),
       ("last_updated", .dt u.last_updated),
       ("address", serializeAddress a),
       ("customer_relationships", .arr ((relsOf db u).map serializeRel))])

/-- The serialization for-loop of views.py lines 295-327: one entry per
user of the page, aborted by the first failure. -/
def serializeUsers (db : DB) : List AppUser → Except Unit (List JVal)
  | [] => .ok []
  | u :: rest =>
    match serializeUser db u with
    | .error e => .error e
    | .ok j =>
      match serializeUsers db rest with
      | .error e => .error e
      | .ok js => .ok (j :: js)

/-! ## The request handler (views.py lines 119-340) -/

/-- HTTP outcome of list_entries: the 200 page envelope, or a JSON error
with its status. -/
inductive Response where
  | ok (page : Int) (total_pages : Int) (total_items : Nat) (results : List JVal)
  | err (status : Nat) (msg : String)

/-- Keys of the request that are not in ALLOWED_PARAMETERS, in request
order (views.py line 127). -/
def unexpectedParams (req : Request) : List String :=
  (req.map Prod.fst).filter fun p => !(ALLOWED_PARAMETERS.contains p)

/-- The sort key handed to order_by: sort_by, with a minus sign in front
when order is exactly desc (views.py lines 138-139 and 153-155). -/
def effectiveSortKey (req : Request) : String :=
  if getParamD req "order" "asc" == "desc" then
    "-" ++ getParamD req "sort_by" "id"
  else getParamD req "sort_by" "id"

/-- The two filtering try blocks in sequence (views.py lines 162-281); both
map a raised exception to the same 400 response. -/
def filteredUsers (db : DB) (req : Request) : Except Unit (List AppUser) :=
  match applyLoopFilters db (filtersOf req) db.users with
  | .error e => .error e
  | .ok qs1 => dateSection db req qs1

/-- The filtered queryset in the order order_by leaves it. -/
def orderedUsers (db : DB) (req : Request) : Except Unit (List AppUser) :=
  match filteredUsers db req with
  | .error e => .error e
  | .ok qs2 => .ok (order_by db (effectiveSortKey req) qs2)

/-- Embedding of the view function list_entries. -/
def list_entries (db : DB) (req : Request) : Response :=
  if unexpectedParams req ≠ [] then
    .err 400 ("Invalid parameters: " ++ pyJoin ", " (unexpectedParams req))
  else
    match pageOf req, page_sizeOf req with
    | some page, some page_size =>
      if all_sortable_fields.contains (getParamD req "sort_by" "id") then
        match orderedUsers db req with
        | .error _ => .err 400 "Error applying filters"
        | .ok sorted =>
          match get_page sorted page_size page with
          | .error _ => .err 400 "Error applying sorting or pagination"
          | .ok items =>
            match serializeUsers db items with
            | .error _ => .err 500 "Error serializing data"
            | .ok results =>
              .ok page (num_pages_val sorted.length page_size) sorted.length results
      else
        .err 400 ("Invalid sort_by field: " ++ getParamD req "sort_by" "id")
    | _, _ => .err 400 "Invalid query parameters"

/-! ## Example data -/

def exDate : PyDate := ⟨2020, 1, 1⟩

def exDT : PyDateTime := ⟨exDate, 0⟩

def exAddress : Address := ⟨1, "Main", "5", "1010", "Maseru", "Lesotho"⟩

def exUser : AppUser :=
  ⟨1, "Cynthia", "Smith", "F", "c1", "p1", exDT, 1, exDate, exDT⟩

def exRel : CustomerRelationship := ⟨1, 1, 2663219, exDT, exDT⟩

/-- A database with one user, one address and one relationship. -/
def exDB : DB := ⟨[exAddress], [exUser], [exRel]⟩

/-- The empty database. -/
def emptyDB : DB := ⟨[], [], []⟩

/-! ## Supporting lemmas -/

theorem pyJoin_names (sep k : String) :
    ∀ l : List String, k ∈ l → ∃ pre post, pyJoin sep l = pre ++ k ++ post := by
  intro l
  induction l with
  | nil => intro h; cases h
  | cons x rest ih =>
    intro h
    cases rest with
    | nil =>
      rcases List.mem_singleton.mp h with rfl
      exact ⟨"", "", by simp [pyJoin]⟩
    | cons y rest2 =>
      rcases List.mem_cons.mp h with rfl | h2
      · exact ⟨"", sep ++ pyJoin sep (y :: rest2), by simp [pyJoin, String.append_assoc]⟩
      · obtain ⟨pre, post, heq⟩ := ih h2
        refine ⟨x ++ sep ++ pre, post, ?_⟩
        simp [pyJoin, heq, String.append_assoc]

theorem serializeUsers_length (db : DB) :
    ∀ l r, serializeUsers db l = .ok r → r.length = l.length := by
  intro l
  induction l with
  | nil => intro r h; simp [serializeUsers] at h; simp [← h]
  | cons u rest ih =>
    intro r h
    unfold serializeUsers at h
    cases hs : serializeUser db u <;> rw [hs] at h
    · cases h
    · cases hr : serializeUsers db rest <;> rw [hr] at h
      · cases h
      · cases h
        simp [ih _ hr]

theorem qsSlice_ok {α : Type} {l : List α} {b t : Int} {out : List α}
    (h : qsSlice l b t = .ok out) :
    0 ≤ b ∧ 0 ≤ t ∧ out = (l.drop b.toNat).take (t.toNat - b.toNat) := by
  unfold qsSlice at h
  split at h
  · cases h
  · rename_i hcond
    simp only [Bool.or_eq_true, decide_eq_true_eq, not_or] at hcond
    cases h
    exact ⟨by omega, by omega, rfl⟩

theorem validate_number_ok {count : Nat} {ps n m : Int}
    (h : validate_number count ps n = .ok m) :
    m = n ∧ 1 ≤ n ∧ ¬ps = 0 ∧ (n ≤ num_pages_val count ps ∨ n = 1) := by
  unfold validate_number at h
  split at h
  · cases h
  split at h
  · cases h
  rename_i h1 h2
  simp only [beq_iff_eq] at h2
  split at h
  · split at h
    · rename_i h3 h4
      cases h
      simp only [beq_iff_eq] at h4
      exact ⟨rfl, by omega, h2, Or.inr h4⟩
    · cases h
  · rename_i h3
    cases h
    exact ⟨rfl, by omega, h2, Or.inl (by omega)⟩

theorem paginator_page_length_le {l : List AppUser} {ps n : Int} {out : List AppUser}
    (hps : 0 < ps) (h : paginator_page l ps n = .ok out) : out.length ≤ ps.toNat := by
  unfold paginator_page at h
  split at h
  · cases h
  rename_i m hv
  obtain ⟨hb, ht, hout⟩ := qsSlice_ok h
  subst hout
  have htle : (if (m - 1) * ps + ps ≥ (l.length : Int) then (l.length : Int)
      else (m - 1) * ps + ps) ≤ (m - 1) * ps + ps := by
    split <;> omega
  calc ((l.drop ((m - 1) * ps).toNat).take
          ((if (m - 1) * ps + ps ≥ (l.length : Int) then (l.length : Int)
            else (m - 1) * ps + ps).toNat - ((m - 1) * ps).toNat)).length
      ≤ (if (m - 1) * ps + ps ≥ (l.length : Int) then (l.length : Int)
          else (m - 1) * ps + ps).toNat - ((m - 1) * ps).toNat := by
        simp [List.length_take_le]
    _ ≤ ps.toNat := by omega

theorem get_page_length_le {l : List AppUser} {ps n : Int} {out : List AppUser}
    (hps : 0 < ps) (h : get_page l ps n = .ok out) : out.length ≤ ps.toNat := by
  unfold get_page at h
  split at h
  · exact paginator_page_length_le hps h
  · split at h
    · cases h
    · exact paginator_page_length_le hps h
  · cases h

theorem pyCeilDiv_succ (t s : Nat) :
    pyCeilDiv ((t + 1 : Nat) : Int) ((s + 1 : Nat) : Int) = ((t / (s + 1) + 1 : Nat) : Int) := rfl

theorem pyCeilDiv_nat {t s : Nat} (ht : 0 < t) (hs : 0 < s) :
    pyCeilDiv (t : Int) (s : Int) = ((t + s - 1) / s : Nat) := by
  obtain ⟨t2, rfl⟩ : ∃ t2, t = t2 + 1 := ⟨t - 1, by omega⟩
  obtain ⟨s2, rfl⟩ : ∃ s2, s = s2 + 1 := ⟨s - 1, by omega⟩
  rw [pyCeilDiv_succ]
  congr 1
  have harith : t2 + 1 + (s2 + 1) - 1 = t2 + (s2 + 1) := by omega
  rw [harith, Nat.add_div_right _ (by omega)]

theorem num_pages_val_zero {ps : Int} (hps : 0 < ps) : num_pages_val 0 ps = 1 := by
  obtain ⟨s2, hs⟩ : ∃ s2, ps = ((s2 + 1 : Nat) : Int) :=
    ⟨ps.toNat - 1, by omega⟩
  subst hs
  unfold num_pages_val
  have h1 : ((max 1 0 : Nat) : Int) = ((0 + 1 : Nat) : Int) := by norm_num
  rw [h1, pyCeilDiv_succ]
  simp

theorem num_pages_val_pos {c : Nat} {ps : Int} (hps : 0 < ps) (hc : 0 < c) :
    num_pages_val c ps = ((c + ps.toNat - 1) / ps.toNat : Nat) := by
  unfold num_pages_val
  have h1 : ((max 1 c : Nat) : Int) = (c : Int) := by
    congr 1; omega
  rw [h1]
  have h2 : ps = ((ps.toNat : Nat) : Int) := by omega
  rw [h2]
  exact pyCeilDiv_nat hc (by omega)

/-- Inversion of a 200 response: every stage succeeded and the response
fields come from the pipeline. -/
theorem list_entries_ok_inv {db : DB} {req : Request} {p tp : Int} {ti : Nat}
    {res : List JVal} (h : list_entries db req = .ok p tp ti res) :
    unexpectedParams req = [] ∧
    pageOf req = some p ∧
    ∃ ps, page_sizeOf req = some ps ∧
      all_sortable_fields.contains (getParamD req "sort_by" "id") = true ∧
      ∃ sorted items,
        orderedUsers db req = .ok sorted ∧
        get_page sorted ps p = .ok items ∧
        serializeUsers db items = .ok res ∧
        tp = num_pages_val sorted.length ps ∧
        ti = sorted.length := by
  unfold list_entries at h
  split at h
  · cases h
  rename_i hu
  simp only [ne_eq, not_not] at hu
  split at h
  case h_2 => cases h
  rename_i p0 ps0 hp hps
  split at h
  case isFalse => cases h
  rename_i hsort
  split at h
  case h_1 => cases h
  rename_i sorted ho
  split at h
  case h_1 => cases h
  rename_i items hg
  split at h
  case h_1 => cases h
  rename_i results hser
  cases h
  exact ⟨hu, hp, ps0, hps, hsort, sorted, items, ho, hg, hser, rfl, rfl⟩

/-! ## Claim C3: unrecognized parameter keys -/

/-- Claim C3: when the request contains at least one query-parameter key
outside the recognized set, the handler returns the 400 response whose
error message is built from the list of offending keys; the message names
every offending key (it contains each one as a substring), and the
response does not depend on the database, so no query is constructed or
executed. -/
theorem C3_unrecognized_params (db db2 : DB) (req : Request)
    (h : unexpectedParams req ≠ []) :
    list_entries db req =
      .err 400 ("Invalid parameters: " ++ pyJoin ", " (unexpectedParams req)) ∧
    (∀ k, k ∈ req.map Prod.fst → k ∉ ALLOWED_PARAMETERS →
      ∃ pre post,
        "Invalid parameters: " ++ pyJoin ", " (unexpectedParams req) =
          pre ++ k ++ post) ∧
    list_entries db req = list_entries db2 req := by
  have hmain : ∀ d : DB, list_entries d req =
      .err 400 ("Invalid parameters: " ++ pyJoin ", " (unexpectedParams req)) := by
    intro d
    unfold list_entries
    split
    · rfl
    · rename_i hc; exact absurd h hc
  refine ⟨hmain db, ?_, by rw [hmain db, hmain db2]⟩
  intro k hk hnall
  have hmem : k ∈ unexpectedParams req := by
    unfold unexpectedParams
    exact List.mem_filter.mpr ⟨hk, by simpa using hnall⟩
  obtain ⟨pre, post, heq⟩ := pyJoin_names ", " k (unexpectedParams req) hmem
  exact ⟨"Invalid parameters: " ++ pre, post, by
    rw [heq]; simp [String.append_assoc]⟩

/-- Witness for C3 at a concrete request with two offending keys. -/
theorem C3_unrecognized_params_witness :
    list_entries exDB [("bogus", "1"), ("color", "red")] =
      .err 400 ("Invalid parameters: " ++
        pyJoin ", " (unexpectedParams [("bogus", "1"), ("color", "red")])) ∧
    (∀ k, k ∈ ([("bogus", "1"), ("color", "red")] : Request).map Prod.fst →
      k ∉ ALLOWED_PARAMETERS →
      ∃ pre post,
        "Invalid parameters: " ++
          pyJoin ", " (unexpectedParams [("bogus", "1"), ("color", "red")]) =
          pre ++ k ++ post) ∧
    list_entries exDB [("bogus", "1"), ("color", "red")] =
      list_entries emptyDB [("bogus", "1"), ("color", "red")] :=
  C3_unrecognized_params exDB emptyDB [("bogus", "1"), ("color", "red")] (by decide)

/-- Serialized form of exUser in exDB. -/
def exUserJson : JVal :=
  .obj [("id", .i 1), ("first_name", .s "Cynthia"), ("last_name", .s "Smith"),
        ("gender", .s "F"), ("customer_id", .s "c1"), ("phone_number", .s "p1"),
        ("created", .dt exDT), ("birthday", .date exDate), ("last_updated", .dt exDT),
        ("address", serializeAddress exAddress),
        ("customer_relationships", .arr [serializeRel exRel])]

/-! ## Claim C10: the echoed page number -/

unseal List.merge List.mergeSort in
/-- Claim C10: the page field of every 200 response is exactly the page
number the client supplied (as parsed from the request, default 1), even
when it exceeds total_pages; concretely, requesting page 9999 of a one-user
database is answered with page 9999 although there is only one page. -/
theorem C10_page_echoes_request (db : DB) (req : Request) (p tp : Int)
    (ti : Nat) (res : List JVal) (h : list_entries db req = .ok p tp ti res) :
    pageOf req = some p ∧
    ∃ tp2 ti2 res2,
      list_entries exDB [("page", "9999")] = .ok 9999 tp2 ti2 res2 ∧ tp2 < 9999 :=
  ⟨(list_entries_ok_inv h).2.1, 1, 1, [exUserJson], rfl, by decide⟩

unseal List.merge List.mergeSort in
/-- Witness for C10 at the page-9999 request itself. -/
theorem C10_page_echoes_request_witness :
    pageOf [("page", "9999")] = some 9999 ∧
    ∃ tp2 ti2 res2,
      list_entries exDB [("page", "9999")] = .ok 9999 tp2 ti2 res2 ∧ tp2 < 9999 :=
  C10_page_echoes_request exDB [("page", "9999")] 9999 1 1 [exUserJson] rfl

/-! ## Claim C1: pagination arithmetic -/

unseal List.merge List.mergeSort in
/-- Counterexample to claim C1 as stated: a valid request over the empty
database yields total_items 0 but total_pages 1, not 0 (the paginator
allows an empty first page). -/
theorem C1_counterexample :
    ∃ p tp ti res, list_entries emptyDB [] = .ok p tp ti res ∧
      ti = 0 ∧ tp ≠ 0 :=
  ⟨1, 1, 0, [], rfl, rfl, by decide⟩

unseal List.merge List.mergeSort in
/-- Claim C1 as amended: in every 200 response with a positive page_size,
total_pages equals ceil(total_items / page_size) when total_items is
positive and equals 1 (not 0) when total_items is 0, and the number of
results never exceeds page_size. -/
theorem C1_pagination_invariants (db : DB) (req : Request) (p tp : Int)
    (ti : Nat) (res : List JVal) (ps : Int)
    (h : list_entries db req = .ok p tp ti res)
    (hps : page_sizeOf req = some ps) (hpos : 0 < ps) :
    (ti = 0 → tp = 1) ∧
    (0 < ti → tp = ((ti + ps.toNat - 1) / ps.toNat : Nat)) ∧
    res.length ≤ ps.toNat := by
  obtain ⟨hu, hp, ps0, hps0, hsort, sorted, items, ho, hg, hser, htp, hti⟩ :=
    list_entries_ok_inv h
  rw [hps] at hps0
  injection hps0 with hps0
  subst hps0
  subst htp
  subst hti
  refine ⟨?_, ?_, ?_⟩
  · intro h0
    rw [h0]
    exact num_pages_val_zero hpos
  · intro hpos2
    exact num_pages_val_pos hpos hpos2
  · rw [serializeUsers_length db items res hser]
    exact get_page_length_le hpos hg

unseal List.merge List.mergeSort in
/-- Witness for the amended C1 at a one-user database with the default
pagination parameters. -/
theorem C1_pagination_invariants_witness :
    ((1 : Nat) = 0 → (1 : Int) = 1) ∧
    (0 < (1 : Nat) → (1 : Int) = (((1 : Nat) + (10 : Int).toNat - 1) / (10 : Int).toNat : Nat)) ∧
    ([exUserJson].length ≤ (10 : Int).toNat) :=
  C1_pagination_invariants exDB [] 1 1 1 [exUserJson] 10 rfl rfl (by decide)

/-- Reduction of list_entries to its post-validation core once the request
has passed parameter validation, parsing and the sort allow-list. -/
theorem list_entries_core (db : DB) (req : Request) (page ps : Int)
    (h1 : unexpectedParams req = [])
    (h2 : pageOf req = some page) (h3 : page_sizeOf req = some ps)
    (h4 : all_sortable_fields.contains (getParamD req "sort_by" "id") = true) :
    list_entries db req =
      match orderedUsers db req with
      | .error _ => .err 400 "Error applying filters"
      | .ok sorted =>
        match get_page sorted ps page with
        | .error _ => .err 400 "Error applying sorting or pagination"
        | .ok items =>
          match serializeUsers db items with
          | .error _ => .err 500 "Error serializing data"
          | .ok results =>
            .ok page (num_pages_val sorted.length ps) sorted.length results := by
  unfold list_entries
  rw [h1, h2, h3]
  simp [h4]
  intro hc
  exact absurd (by simpa using h4) hc

/-- Reduction of list_entries to the InvalidSortField response when the
request passes validation and parsing but the sort key is off the allow
list. -/
theorem list_entries_sort_invalid (db : DB) (req : Request) (page ps : Int)
    (h1 : unexpectedParams req = [])
    (h2 : pageOf req = some page) (h3 : page_sizeOf req = some ps)
    (h4 : all_sortable_fields.contains (getParamD req "sort_by" "id") = false) :
    list_entries db req =
      .err 400 ("Invalid sort_by field: " ++ getParamD req "sort_by" "id") := by
  unfold list_entries
  rw [h1, h2, h3]
  simp [h4]
  intro hc
  exact absurd hc (by simpa using h4)

/-- Beyond a negative page count every requested page number is out of
range, so pyCeilDiv of a positive count by a negative page size is never
positive. -/
theorem pyCeilDiv_nonpos {a b : Int} (ha : 1 ≤ a) (hb : b < 0) :
    pyCeilDiv a b ≤ 0 := by
  obtain ⟨m, hm⟩ : ∃ m : Nat, a = ((m + 1 : Nat) : Int) := ⟨a.toNat - 1, by omega⟩
  obtain ⟨n, hn⟩ : ∃ n : Nat, b = Int.negSucc n :=
    ⟨(-b).toNat - 1, by rw [Int.negSucc_eq]; omega⟩
  subst hm hn
  have hred : pyCeilDiv ((m + 1 : Nat) : Int) (Int.negSucc n) =
      -(((m + 1) / (n + 1) : Nat) : Int) := rfl
  rw [hred]
  exact neg_nonpos.mpr (by positivity)

/-- With a page size of 0 or below, fetching page 1 always raises inside
pagination: a ZeroDivisionError from num_pages, or a negative slice bound. -/
theorem get_page_nonpos (l : List AppUser) (z : Int) (hz : z ≤ 0) :
    get_page l z 1 = .error .fatal := by
  rcases lt_or_eq_of_le hz with hlt | rfl
  · have hnp : num_pages_val l.length z ≤ 0 := by
      unfold num_pages_val
      exact pyCeilDiv_nonpos (by omega) hlt
    have hv : validate_number l.length z 1 = .ok 1 := by
      unfold validate_number
      rw [if_neg (by omega), if_neg (by simp; omega), if_pos (by omega), if_pos (by simp)]
    unfold get_page paginator_page
    simp only [hv]
    have hclamp : ¬(((1 : Int) - 1) * z + z ≥ (l.length : Int)) := by omega
    rw [if_neg hclamp]
    unfold qsSlice
    rw [if_pos (by simp only [Bool.or_eq_true, decide_eq_true_eq]; omega)]
  · have hv : validate_number l.length 0 1 = .error .fatal := by
      unfold validate_number
      rw [if_neg (by omega), if_pos (by simp)]
    unfold get_page
    simp only [hv]

theorem num_pages_val_form2 {c : Nat} {ps : Int} (hps : 0 < ps) (hc : 0 < c) :
    num_pages_val c ps = (((c - 1) / ps.toNat + 1 : Nat) : Int) := by
  unfold num_pages_val
  have h1 : ((max 1 c : Nat) : Int) = (c : Int) := by congr 1; omega
  rw [h1]
  obtain ⟨c2, rfl⟩ : ∃ c2, c = c2 + 1 := ⟨c - 1, by omega⟩
  obtain ⟨s2, hs⟩ : ∃ s2, ps = ((s2 + 1 : Nat) : Int) := ⟨ps.toNat - 1, by omega⟩
  rw [hs, pyCeilDiv_succ]
  simp

theorem num_pages_val_ge_one {c : Nat} {ps : Int} (hps : 0 < ps) :
    1 ≤ num_pages_val c ps := by
  rcases Nat.eq_zero_or_pos c with rfl | hc
  · rw [num_pages_val_zero hps]
  · rw [num_pages_val_form2 hps hc]
    exact_mod_cast Nat.succ_pos ((c - 1) / ps.toNat)

/-- Beyond the last page, get_page catches EmptyPage and serves the page
numbered num_pages instead. -/
theorem get_page_beyond {l : List AppUser} {ps pg : Int} (hps : 0 < ps)
    (hpg : num_pages_val l.length ps < pg) :
    get_page l ps pg = paginator_page l ps (num_pages_val l.length ps) := by
  have hge1 : 1 ≤ num_pages_val l.length ps := num_pages_val_ge_one hps
  have h1 : validate_number l.length ps pg = .error .empty := by
    unfold validate_number
    rw [if_neg (by omega), if_neg (by simp only [beq_iff_eq]; omega),
      if_pos (by omega), if_neg (by simp only [beq_iff_eq]; omega)]
  unfold get_page
  simp only [h1]
  rw [if_neg (by simp only [beq_iff_eq]; omega)]

/-- The last page always slices successfully, and it is nonempty whenever
the record set is. -/
theorem paginator_page_last {l : List AppUser} {ps : Int} (hps : 0 < ps) :
    ∃ items, paginator_page l ps (num_pages_val l.length ps) = .ok items ∧
      (l ≠ [] → items ≠ []) := by
  have hge1 : 1 ≤ num_pages_val l.length ps := num_pages_val_ge_one hps
  have hval : validate_number l.length ps (num_pages_val l.length ps) =
      .ok (num_pages_val l.length ps) := by
    unfold validate_number
    rw [if_neg (by omega), if_neg (by simp only [beq_iff_eq]; omega), if_neg (by omega)]
  unfold paginator_page
  simp only [hval]
  have hb0 : 0 ≤ (num_pages_val l.length ps - 1) * ps :=
    mul_nonneg (by omega) (by omega)
  have ht0 : 0 ≤ (if (num_pages_val l.length ps - 1) * ps + ps ≥ (l.length : Int)
      then (l.length : Int) else (num_pages_val l.length ps - 1) * ps + ps) := by
    split <;> omega
  refine ⟨(l.drop ((num_pages_val l.length ps - 1) * ps).toNat).take
      ((if (num_pages_val l.length ps - 1) * ps + ps ≥ (l.length : Int)
        then (l.length : Int)
        else (num_pages_val l.length ps - 1) * ps + ps).toNat -
        ((num_pages_val l.length ps - 1) * ps).toNat), ?_, ?_⟩
  · unfold qsSlice
    rw [if_neg (by simp only [Bool.or_eq_true, decide_eq_true_eq]; omega)]
  · intro hne
    have hlen : 0 < l.length := List.length_pos.mpr hne
    have hform : num_pages_val l.length ps =
        (((l.length - 1) / ps.toNat + 1 : Nat) : Int) := num_pages_val_form2 hps hlen
    have hbot : (num_pages_val l.length ps - 1) * ps <
        (l.length : Int) := by
      rw [hform]
      have hdm : ((l.length - 1) / ps.toNat) * ps.toNat ≤ l.length - 1 :=
        Nat.div_mul_le_self _ _
      have hcast : ((((l.length - 1) / ps.toNat + 1 : Nat) : Int) - 1) * ps =
          ((((l.length - 1) / ps.toNat) * ps.toNat : Nat) : Int) := by
        push_cast
        rw [Int.toNat_of_nonneg hps.le]
        ring
      rw [hcast]
      omega
    have htop : (num_pages_val l.length ps - 1) * ps <
        (if (num_pages_val l.length ps - 1) * ps + ps ≥ (l.length : Int)
          then (l.length : Int)
          else (num_pages_val l.length ps - 1) * ps + ps) := by
      split <;> omega
    refine List.ne_nil_of_length_pos ?_
    rw [List.length_take, List.length_drop]
    omega

/-! ## Claim C4: page and page_size parsing -/

unseal List.merge List.mergeSort in
/-- Counterexample to claim C4 as stated: a request with page_size 0 does
return status 400, but through the pagination error response, not the
InvalidParameter response the claim requires: the two error messages
differ. -/
theorem C4_counterexample :
    list_entries emptyDB [("page_size", "0")] =
      .err 400 "Error applying sorting or pagination" ∧
    "Error applying sorting or pagination" ≠ "Invalid query parameters" ∧
    "Error applying sorting or pagination" ≠
      "Invalid parameters: " ++ pyJoin ", " (unexpectedParams [("page_size", "0")]) :=
  ⟨rfl, by decide, by decide⟩

/-- Claim C4 as amended: page and page_size must parse as integers; a
non-numeric value of either fails with the InvalidParameter response (400,
message Invalid query parameters); a page_size of 0 or negative also
yields status 400, but through the pagination-error response (message
Error applying sorting or pagination) rather than InvalidParameter; in
every case a response is produced rather than an unhandled fault, and no
page of records is returned. -/
theorem C4_param_parsing (db : DB) (v : String) (z : Int) :
    (pyInt v = none →
      list_entries db [("page", v)] = .err 400 "Invalid query parameters" ∧
      list_entries db [("page_size", v)] = .err 400 "Invalid query parameters") ∧
    (pyInt v = some z → z ≤ 0 →
      list_entries db [("page_size", v)] =
        .err 400 "Error applying sorting or pagination") := by
  constructor
  · intro hv
    constructor
    · unfold list_entries
      rw [show unexpectedParams [("page", v)] = [] from rfl, if_neg (by simp),
        show pageOf [("page", v)] = pyInt v from rfl, hv,
        show page_sizeOf [("page", v)] = some 10 from rfl]
    · unfold list_entries
      rw [show unexpectedParams [("page_size", v)] = [] from rfl, if_neg (by simp),
        show pageOf [("page_size", v)] = some 1 from rfl,
        show page_sizeOf [("page_size", v)] = pyInt v from rfl, hv]
  · intro hv hz
    have h3 : page_sizeOf [("page_size", v)] = some z := hv
    rw [list_entries_core db [("page_size", v)] 1 z rfl rfl h3 rfl]
    have ho : orderedUsers db [("page_size", v)] =
        .ok (order_by db "id" db.users) := rfl
    simp only [ho, get_page_nonpos _ z hz]

unseal List.merge List.mergeSort in
/-- Witness for the amended C4: the non-numeric value abc for page and for
page_size, and the negative page_size minus five. -/
theorem C4_param_parsing_witness :
    list_entries exDB [("page", "abc")] = .err 400 "Invalid query parameters" ∧
    list_entries exDB [("page_size", "abc")] = .err 400 "Invalid query parameters" ∧
    list_entries exDB [("page_size", "-5")] =
      .err 400 "Error applying sorting or pagination" :=
  ⟨((C4_param_parsing exDB "abc" 0).1 rfl).1,
   ((C4_param_parsing exDB "abc" 0).1 rfl).2,
   (C4_param_parsing exDB "-5" (-5)).2 rfl (by decide)⟩

/-! ## Claim C5: requesting a page beyond the last -/

unseal List.merge List.mergeSort in
/-- Counterexample to claim C5 as stated: over an empty filtered result
set, a valid request for page 9999 (beyond the last page, since
total_pages is 1) succeeds with an empty results list, contradicting the
claim that the returned records are never an empty list. -/
theorem C5_counterexample :
    ∃ tp, list_entries emptyDB [("page", "9999")] = .ok 9999 tp 0 [] ∧ tp < 9999 :=
  ⟨1, rfl, by decide⟩

/-- Claim C5 as amended: for a valid request whose page number exceeds the
last page, pagination serves exactly the last page's slice; that slice
always exists (no error), it is nonempty whenever the filtered result set
is nonempty, and the 200 response carries its serialization. -/
theorem C5_beyond_last_page (db : DB) (req : Request) (pg ps : Int)
    (sorted : List AppUser)
    (h1 : unexpectedParams req = []) (h2 : pageOf req = some pg)
    (h3 : page_sizeOf req = some ps)
    (h4 : all_sortable_fields.contains (getParamD req "sort_by" "id") = true)
    (ho : orderedUsers db req = .ok sorted)
    (hps : 0 < ps) (hpg : num_pages_val sorted.length ps < pg) :
    get_page sorted ps pg = paginator_page sorted ps (num_pages_val sorted.length ps) ∧
    ∃ lastItems,
      paginator_page sorted ps (num_pages_val sorted.length ps) = .ok lastItems ∧
      (sorted ≠ [] → lastItems ≠ []) ∧
      ∀ results, serializeUsers db lastItems = .ok results →
        list_entries db req = .ok pg (num_pages_val sorted.length ps) sorted.length results := by
  obtain ⟨lastItems, hlast, hne⟩ := paginator_page_last (l := sorted) hps
  refine ⟨get_page_beyond hps hpg, lastItems, hlast, hne, ?_⟩
  intro results hser
  rw [list_entries_core db req pg ps h1 h2 h3 h4]
  simp only [ho, get_page_beyond hps hpg, hlast, hser]

unseal List.merge List.mergeSort in
/-- Witness for the amended C5: page 9999 of the one-user database serves
the single record of the last page. -/
theorem C5_beyond_last_page_witness :
    get_page [exUser] 10 9999 = paginator_page [exUser] 10 (num_pages_val 1 10) ∧
    ∃ lastItems,
      paginator_page [exUser] 10 (num_pages_val 1 10) = .ok lastItems ∧
      ([exUser] ≠ [] → lastItems ≠ []) ∧
      ∀ results, serializeUsers exDB lastItems = .ok results →
        list_entries exDB [("page", "9999")] =
          .ok 9999 (num_pages_val 1 10) 1 results :=
  C5_beyond_last_page exDB [("page", "9999")] 9999 10 [exUser] rfl rfl rfl rfl rfl
    (by decide) (by decide)

/-! ## Claim C8: the order parameter -/

/-- Request keys the date-range section reads through request.GET.get. -/
def dateSectionKeys : List String :=
  ["relationship_id", "appuser_created", "appuser_created_after",
   "appuser_created_before", "relationship_created", "relationship_created_after",
   "relationship_created_before", "last_updated", "last_updated_after",
   "last_updated_before", "last_activity", "last_activity_after",
   "last_activity_before"]

/-- The date-range section only observes the request through the lookups of
its thirteen keys. -/
theorem dateSection_congr (db : DB) {r1 r2 : Request}
    (h : ∀ k, k ∈ dateSectionKeys → getParam r1 k = getParam r2 k) :
    dateSection db r1 = dateSection db r2 := by
  funext qs
  unfold dateSection relIdStep userDateStep relDateStep collectRelCond
  rw [h "relationship_id" (by decide), h "appuser_created" (by decide),
    h "appuser_created_after" (by decide), h "appuser_created_before" (by decide),
    h "relationship_created" (by decide), h "relationship_created_after" (by decide),
    h "relationship_created_before" (by decide), h "last_updated" (by decide),
    h "last_updated_after" (by decide), h "last_updated_before" (by decide),
    h "last_activity" (by decide), h "last_activity_after" (by decide),
    h "last_activity_before" (by decide)]

/-- The handler only observes the request through the validator output, the
parsed pagination numbers, the sort key, the effective sort direction, the
filters dict and the date-section lookups. -/
theorem list_entries_req_congr (db : DB) {r1 r2 : Request}
    (hu : unexpectedParams r1 = unexpectedParams r2)
    (hp : pageOf r1 = pageOf r2) (hps : page_sizeOf r1 = page_sizeOf r2)
    (hsb : getParamD r1 "sort_by" "id" = getParamD r2 "sort_by" "id")
    (hesk : effectiveSortKey r1 = effectiveSortKey r2)
    (hf : filtersOf r1 = filtersOf r2)
    (hds : ∀ k, k ∈ dateSectionKeys → getParam r1 k = getParam r2 k) :
    list_entries db r1 = list_entries db r2 := by
  unfold list_entries orderedUsers filteredUsers
  rw [hu, hp, hps, hsb, hesk, hf, dateSection_congr db hds]

/-- Claim C8: the sort direction is descending exactly when order is the
string desc.  With order equal to desc, the key handed to order_by carries
the minus sign, and order_by then sorts by the reversed comparison; with
order set to any other value the response is identical to an explicit asc,
which in turn is identical to omitting order entirely (the default), so no
other value raises an error. -/
theorem C8_order_direction (db : DB) (rest : Request) (v : String)
    (hno : getParam rest "order" = none) (hv : v ≠ "desc") :
    list_entries db (("order", v) :: rest) =
      list_entries db (("order", "asc") :: rest) ∧
    list_entries db (("order", "asc") :: rest) = list_entries db rest ∧
    effectiveSortKey (("order", "desc") :: rest) =
      "-" ++ getParamD rest "sort_by" "id" ∧
    ∀ key l, order_by db ("-" ++ key) l =
      l.mergeSort fun a b => svalLE (sortValue db key b) (sortValue db key a) := by
  have hbv : (v == "desc") = false := by
    simp only [beq_eq_false_iff_ne, ne_eq]
    exact hv
  have hord1 : getParamD (("order", v) :: rest) "order" "asc" = v := rfl
  have hordA : getParamD (("order", "asc") :: rest) "order" "asc" = "asc" := rfl
  have hordR : getParamD rest "order" "asc" = "asc" := by
    unfold getParamD
    rw [hno]
    rfl
  have hsb1 : getParamD (("order", v) :: rest) "sort_by" "id" =
      getParamD rest "sort_by" "id" := rfl
  have hsbA : getParamD (("order", "asc") :: rest) "sort_by" "id" =
      getParamD rest "sort_by" "id" := rfl
  refine ⟨?_, ?_, ?_, ?_⟩
  · refine list_entries_req_congr db rfl rfl rfl rfl ?_ rfl ?_
    · unfold effectiveSortKey
      rw [hord1, hordA, hsb1, hsbA, hbv]
      rfl
    · intro k hk
      fin_cases hk <;> rfl
  · refine list_entries_req_congr db rfl rfl rfl rfl ?_ rfl ?_
    · unfold effectiveSortKey
      rw [hordA, hordR, hsbA]
    · intro k hk
      fin_cases hk <;> rfl
  · rfl
  · intro key l
    obtain ⟨d⟩ := key
    rfl

/-- Witness for C8 at a request whose order value is neither asc nor
desc. -/
theorem C8_order_direction_witness :
    list_entries exDB [("order", "weird")] = list_entries exDB [("order", "asc")] ∧
    list_entries exDB [("order", "asc")] = list_entries exDB [] ∧
    effectiveSortKey [("order", "desc")] = "-" ++ getParamD [] "sort_by" "id" ∧
    (∀ key l, order_by exDB ("-" ++ key) l =
      l.mergeSort fun a b => svalLE (sortValue exDB key b) (sortValue exDB key a)) := by
  have h := C8_order_direction exDB [] "weird" rfl (by decide)
  exact ⟨h.1, h.2.1, h.2.2.1, h.2.2.2⟩

/-! ## Claim C6: the sort-field allow list -/

theorem filters_msg_ne_sort_msg (s : String) :
    "Error applying filters" ≠ "Invalid sort_by field: " ++ s := by
  intro h
  have hh : ("Invalid sort_by field: " ++ s).data.head? = some 'I' := by
    obtain ⟨d⟩ := s
    rfl
  rw [← h] at hh
  exact absurd hh (by decide)

theorem pag_msg_ne_sort_msg (s : String) :
    "Error applying sorting or pagination" ≠ "Invalid sort_by field: " ++ s := by
  intro h
  have hh : ("Invalid sort_by field: " ++ s).data.head? = some 'I' := by
    obtain ⟨d⟩ := s
    rfl
  rw [← h] at hh
  exact absurd hh (by decide)

theorem ser_msg_ne_sort_msg (s : String) :
    "Error serializing data" ≠ "Invalid sort_by field: " ++ s := by
  intro h
  have hh : ("Invalid sort_by field: " ++ s).data.head? = some 'I' := by
    obtain ⟨d⟩ := s
    rfl
  rw [← h] at hh
  exact absurd hh (by decide)

/-- Claim C6: for a request that passes parameter validation and whose
pagination numbers parse, the handler answers with the 400 InvalidSortField
response exactly when the requested sort key is outside the statically
built allow list; that list is the concatenation of the AppUser field
names, the Address field names under the address relation, and the
CustomerRelationship field names under the customerrelationship relation;
in particular the bare key points is rejected while its prefixed form is
accepted. -/
theorem C6_sort_allow_list (db : DB) (req : Request) (pg ps : Int)
    (h1 : unexpectedParams req = [])
    (h2 : pageOf req = some pg) (h3 : page_sizeOf req = some ps) :
    (list_entries db req =
        .err 400 ("Invalid sort_by field: " ++ getParamD req "sort_by" "id") ↔
      getParamD req "sort_by" "id" ∉ all_sortable_fields) ∧
    all_sortable_fields =
      appuser_fields ++ address_fields ++ customerrelationship_fields ∧
    "points" ∉ all_sortable_fields ∧
    "customerrelationship__points" ∈ all_sortable_fields := by
  refine ⟨?_, rfl, by decide, by decide⟩
  by_cases hc : all_sortable_fields.contains (getParamD req "sort_by" "id") = true
  · have hmem : getParamD req "sort_by" "id" ∈ all_sortable_fields := by
      simpa using hc
    rw [list_entries_core db req pg ps h1 h2 h3 hc]
    constructor
    · intro heq
      exfalso
      rcases ho : orderedUsers db req with e | sorted
      · simp only [ho, Response.err.injEq] at heq
        exact filters_msg_ne_sort_msg _ heq.2
      · simp only [ho] at heq
        rcases hg : get_page sorted ps pg with e2 | items
        · simp only [hg, Response.err.injEq] at heq
          exact pag_msg_ne_sort_msg _ heq.2
        · simp only [hg] at heq
          rcases hser : serializeUsers db items with e3 | results
          · simp only [hser, Response.err.injEq] at heq
            omega
          · simp only [hser, reduceCtorEq] at heq
    · intro hnot
      exact absurd hmem hnot
  · have hnmem : getParamD req "sort_by" "id" ∉ all_sortable_fields := by
      simpa using hc
    rw [list_entries_sort_invalid db req pg ps h1 h2 h3 (by simpa using hc)]
    exact ⟨fun _ => hnmem, fun _ => rfl⟩

/-- Witness for C6 at the request sorting by the bare key points. -/
theorem C6_sort_allow_list_witness :
    (list_entries emptyDB [("sort_by", "points")] =
        .err 400 ("Invalid sort_by field: " ++
          getParamD [("sort_by", "points")] "sort_by" "id") ↔
      getParamD [("sort_by", "points")] "sort_by" "id" ∉ all_sortable_fields) ∧
    all_sortable_fields =
      appuser_fields ++ address_fields ++ customerrelationship_fields ∧
    "points" ∉ all_sortable_fields ∧
    "customerrelationship__points" ∈ all_sortable_fields :=
  C6_sort_allow_list emptyDB [("sort_by", "points")] 1 10 rfl rfl rfl

theorem exc_bind_ok {e a b : Type} (x : a) (f : a → Except e b) :
    (Except.ok x : Except e a) >>= f = f x := rfl

theorem exc_bind_err {e a b : Type} (err : e) (f : a → Except e b) :
    (Except.error err : Except e a) >>= f = .error err := rfl

theorem exc_pure_eq_ok {e a : Type} (x : a) : (pure x : Except e a) = .ok x := rfl

/-! ## Claim C2: date filters and the never-silently-dropped rule -/

unseal List.merge List.mergeSort in
/-- Counterexample to claim C2 as stated: a date-range value that does not
match the date format is silently dropped: the response equals the
unfiltered response and is a 200 carrying every record, not a 400. -/
theorem C2_counterexample :
    list_entries exDB [("appuser_created_after", "nonsense")] =
      list_entries exDB [] ∧
    list_entries exDB [("appuser_created_after", "nonsense")] =
      .ok 1 1 1 [exUserJson] := by
  have hA : list_entries exDB [("appuser_created_after", "nonsense")] =
      .ok 1 1 1 [exUserJson] := rfl
  have hB : list_entries exDB [] = .ok 1 1 1 [exUserJson] := rfl
  exact ⟨hA.trans hB.symm, hA⟩

/-- The date keys that are not also model attributes: their only effect is
in the date-range section. -/
def pureDateKeys : List String :=
  ["appuser_created", "appuser_created_after", "appuser_created_before",
   "relationship_created", "relationship_created_after",
   "relationship_created_before", "last_updated_after", "last_updated_before",
   "last_activity_after", "last_activity_before"]

set_option maxHeartbeats 2000000 in
/-- Claim C2 as amended: for a date filter key, a nonempty value that does
not match the date format contributes no predicate and is silently ignored
(the response is exactly the response for the request without the filter),
while a value that matches the format but is not a valid calendar date
raises and yields the 400 FilterApplicationError response. -/
theorem C2_date_filters (db : DB) (k v : String) (hk : k ∈ pureDateKeys)
    (hne : v ≠ "") :
    (parse_date v = .noMatch → list_entries db [(k, v)] = list_entries db []) ∧
    (parse_date v = .invalid →
      list_entries db [(k, v)] = .err 400 "Error applying filters") := by
  have hbe : (v == "") = false := by
    simp only [beq_eq_false_iff_ne, ne_eq]
    exact hne
  have h1 : unexpectedParams [(k, v)] = [] := by fin_cases hk <;> rfl
  have h2 : pageOf [(k, v)] = some 1 := by fin_cases hk <;> rfl
  have h3 : page_sizeOf [(k, v)] = some 10 := by fin_cases hk <;> rfl
  have h4 : all_sortable_fields.contains (getParamD [(k, v)] "sort_by" "id") = true := by
    fin_cases hk <;> rfl
  constructor
  · intro hnm
    rw [list_entries_core db [(k, v)] 1 10 h1 h2 h3 h4,
      list_entries_core db [] 1 10 rfl rfl rfl rfl]
    suffices hsuf : orderedUsers db [(k, v)] = orderedUsers db [] by rw [hsuf]
    unfold orderedUsers filteredUsers
    fin_cases hk <;>
      simp [applyLoopFilters, loopPred, appUserAttrs, addressAttrs,
        customerRelationshipAttrs, dateSection, relIdStep, userDateStep,
        relDateStep, collectRelCond, getParam, filtersOf, hbe, hnm,
        effectiveSortKey, getParamD, exc_bind_ok, exc_bind_err, exc_pure_eq_ok]
  · intro hinv
    rw [list_entries_core db [(k, v)] 1 10 h1 h2 h3 h4]
    suffices hsuf : orderedUsers db [(k, v)] = .error () by
      rw [hsuf]
    unfold orderedUsers filteredUsers
    fin_cases hk <;>
      simp [applyLoopFilters, loopPred, appUserAttrs, addressAttrs,
        customerRelationshipAttrs, dateSection, relIdStep, userDateStep,
        relDateStep, collectRelCond, getParam, filtersOf, hbe, hinv,
        exc_bind_ok, exc_bind_err, exc_pure_eq_ok]

/-- Witness for the amended C2 at the key appuser_created_after with a
format-mismatched value and a format-matching but invalid calendar date. -/
theorem C2_date_filters_witness :
    list_entries exDB [("appuser_created_after", "nonsense")] =
      list_entries exDB [] ∧
    list_entries exDB [("appuser_created_after", "2024-13-01")] =
      .err 400 "Error applying filters" :=
  ⟨(C2_date_filters exDB "appuser_created_after" "nonsense"
      (by decide) (by decide)).1 (by decide),
   (C2_date_filters exDB "appuser_created_after" "2024-13-01"
      (by decide) (by decide)).2 (by decide)⟩

/-! ## Claim C7: filter routing and predicate soundness -/

theorem bind_ok_inv {e a b : Type} {x : Except e a} {f : a → Except e b} {out : b}
    (h : x >>= f = .ok out) : ∃ y, x = .ok y ∧ f y = .ok out := by
  cases x
  · cases h
  · exact ⟨_, rfl, h⟩

theorem userDateStep_subset {req : Request} {key : String}
    {p : PyDate → AppUser → Bool} {qs out : List AppUser}
    (h : userDateStep req key p qs = .ok out) : ∀ u ∈ out, u ∈ qs := by
  unfold userDateStep at h
  split at h
  · cases h; exact fun u hu => hu
  · split at h
    · cases h; exact fun u hu => hu
    · split at h
      · cases h; exact fun u hu => (List.mem_filter.mp hu).1
      · cases h; exact fun u hu => hu
      · cases h

theorem relDateStep_subset {db : DB} {req : Request} {key : String}
    {p : PyDate → CustomerRelationship → Bool} {qs out : List AppUser}
    (h : relDateStep db req key p qs = .ok out) : ∀ u ∈ out, u ∈ qs := by
  unfold relDateStep at h
  split at h
  · cases h; exact fun u hu => hu
  · split at h
    · cases h; exact fun u hu => hu
    · split at h
      · cases h; exact fun u hu => (List.mem_filter.mp hu).1
      · cases h; exact fun u hu => hu
      · cases h

theorem relIdStep_subset {db : DB} {req : Request} {qs out : List AppUser}
    (h : relIdStep db req qs = .ok out) : ∀ u ∈ out, u ∈ qs := by
  unfold relIdStep at h
  split at h
  · cases h; exact fun u hu => hu
  · split at h
    · cases h; exact fun u hu => hu
    · cases hn : intOfValue _ <;> rw [hn] at h
      · cases h
      · cases h; exact fun u hu => (List.mem_filter.mp hu).1

theorem dateSection_subset {db : DB} {req : Request} {qs out : List AppUser}
    (h : dateSection db req qs = .ok out) : ∀ u ∈ out, u ∈ qs := by
  unfold dateSection at h
  obtain ⟨q1, e1, h⟩ := bind_ok_inv h
  obtain ⟨q2, e2, h⟩ := bind_ok_inv h
  obtain ⟨q3, e3, h⟩ := bind_ok_inv h
  obtain ⟨q4, e4, h⟩ := bind_ok_inv h
  obtain ⟨q5, e5, h⟩ := bind_ok_inv h
  obtain ⟨c1, f1, h⟩ := bind_ok_inv h
  obtain ⟨c2, f2, h⟩ := bind_ok_inv h
  obtain ⟨q6, e6, h⟩ := bind_ok_inv h
  obtain ⟨q7, e7, h⟩ := bind_ok_inv h
  obtain ⟨q8, e8, h⟩ := bind_ok_inv h
  obtain ⟨q9, e9, h⟩ := bind_ok_inv h
  obtain ⟨c3, f3, h⟩ := bind_ok_inv h
  obtain ⟨c4, f4, h⟩ := bind_ok_inv h
  intro u hu
  have hu9 : u ∈ q9 := by
    split at h
    · rw [exc_pure_eq_ok] at h
      cases h
      exact hu
    · rw [exc_pure_eq_ok] at h
      cases h
      exact (List.mem_filter.mp hu).1
  exact relIdStep_subset e1 u
    (userDateStep_subset e2 u
      (userDateStep_subset e3 u
        (userDateStep_subset e4 u
          (relDateStep_subset e5 u
            (userDateStep_subset e6 u
              (userDateStep_subset e7 u
                (userDateStep_subset e8 u
                  (relDateStep_subset e9 u hu9))))))))

theorem applyLoopFilters_sound (db : DB) :
    ∀ (fs : Request) (qs out : List AppUser),
      applyLoopFilters db fs qs = .ok out →
      ∀ u ∈ out, u ∈ qs ∧
        ∀ kv ∈ fs, ∃ pred, loopPred db kv.1 kv.2 = .ok pred ∧ pred u = true := by
  intro fs
  induction fs with
  | nil =>
    intro qs out h u hu
    cases h
    exact ⟨hu, by simp⟩
  | cons kv rest ih =>
    intro qs out h u hu
    unfold applyLoopFilters at h
    split at h
    · cases h
    · rename_i pred hpred
      obtain ⟨humem, hrest⟩ := ih (qs.filter pred) out h u hu
      obtain ⟨huqs, hupred⟩ := List.mem_filter.mp humem
      refine ⟨huqs, ?_⟩
      intro kv2 hkv2
      rcases List.mem_cons.mp hkv2 with rfl | h2
      · exact ⟨pred, hpred, hupred⟩
      · exact hrest kv2 h2

theorem qsSlice_subset {α : Type} {l out : List α} {b t : Int}
    (h : qsSlice l b t = .ok out) : ∀ u ∈ out, u ∈ l := by
  obtain ⟨-, -, hout⟩ := qsSlice_ok h
  subst hout
  intro u hu
  exact List.drop_subset _ _ (List.take_subset _ _ hu)

theorem paginator_page_subset {l out : List AppUser} {ps n : Int}
    (h : paginator_page l ps n = .ok out) : ∀ u ∈ out, u ∈ l := by
  unfold paginator_page at h
  split at h
  · cases h
  · exact qsSlice_subset h

theorem get_page_subset {l out : List AppUser} {ps n : Int}
    (h : get_page l ps n = .ok out) : ∀ u ∈ out, u ∈ l := by
  unfold get_page at h
  split at h
  · exact paginator_page_subset h
  · split at h
    · cases h
    · exact paginator_page_subset h
  · cases h

theorem order_by_mem {db : DB} {key : String} {l : List AppUser} {u : AppUser} :
    u ∈ order_by db key l ↔ u ∈ l := by
  unfold order_by
  split <;> exact List.mem_mergeSort

/-- Claim C7: every 200 response comes from a pipeline in which each filter
key of the request contributed its routed predicate and every user of the
served page satisfies every one of those predicates; the routing tries the
AppUser attributes first and then Address and then CustomerRelationship
(the ambiguous key id goes to the user), the special keys address_id and
relationship_id compare the related identifier exactly, and text keys
compare case-insensitively (directly or across the join). -/
theorem C7_filter_routing (db : DB) (req : Request) (pg tp : Int) (ti : Nat)
    (res : List JVal) (h : list_entries db req = .ok pg tp ti res) :
    (∃ ps sorted items,
      page_sizeOf req = some ps ∧
      orderedUsers db req = .ok sorted ∧
      get_page sorted ps pg = .ok items ∧
      serializeUsers db items = .ok res ∧
      ∀ u ∈ items, ∀ kv ∈ filtersOf req,
        ∃ pred, loopPred db kv.1 kv.2 = .ok pred ∧ pred u = true) ∧
    (∀ w n, pyInt w = some n →
      loopPred db "address_id" w = .ok (fun u => u.address == n) ∧
      loopPred db "relationship_id" w =
        .ok (fun u => db.relationships.any fun r => r.appuser == u.id && r.id == n) ∧
      loopPred db "id" w = .ok (fun u => u.id == n) ∧
      loopPred db "points" w =
        .ok (fun u => (relsOf db u).any fun r => r.points == n)) ∧
    (∀ w,
      loopPred db "first_name" w = .ok (fun u => iexactStr u.first_name w) ∧
      loopPred db "street" w =
        .ok (fun u => (addrsOf db u).any fun a => iexactStr a.street w)) := by
  obtain ⟨hu, hp, ps, hps, hsort, sorted, items, ho, hg, hser, htp, hti⟩ :=
    list_entries_ok_inv h
  refine ⟨⟨ps, sorted, items, hps, ho, hg, hser, ?_⟩, ?_, fun w => ⟨rfl, rfl⟩⟩
  · intro u huitems kv hkv
    unfold orderedUsers at ho
    rcases hf : filteredUsers db req with e | qs2 <;> rw [hf] at ho
    · cases ho
    · cases ho
      have h1 : u ∈ order_by db (effectiveSortKey req) qs2 :=
        get_page_subset hg u huitems
      have h2 : u ∈ qs2 := order_by_mem.mp h1
      unfold filteredUsers at hf
      rcases hl : applyLoopFilters db (filtersOf req) db.users with e2 | qs1 <;>
        rw [hl] at hf
      · cases hf
      · have h3 : u ∈ qs1 := dateSection_subset hf u h2
        exact (applyLoopFilters_sound db (filtersOf req) db.users qs1 hl u h3).2 kv hkv
  · intro w n hw
    have hw2 : intOfValue w = .ok n := by
      unfold intOfValue
      rw [hw]
    refine ⟨?_, ?_, ?_, ?_⟩
    · have hform : loopPred db "address_id" w =
          (intOfValue w).map fun m u => u.address == m := rfl
      rw [hform, hw2]
      rfl
    · have hform : loopPred db "relationship_id" w =
          (intOfValue w).map
            (fun m u => db.relationships.any fun r => r.appuser == u.id && r.id == m) := rfl
      rw [hform, hw2]
      rfl
    · have hform : loopPred db "id" w =
          (intOfValue w).map fun m u => u.id == m := rfl
      rw [hform, hw2]
      rfl
    · have hform : loopPred db "points" w =
          ((intOfValue w).map fun m r => r.points == m).map
            fun pr u => (relsOf db u).any pr := rfl
      rw [hform, hw2]
      rfl

unseal List.merge List.mergeSort in
/-- Witness for C7 at a request filtering case-insensitively by country. -/
theorem C7_filter_routing_witness :
    (∃ ps sorted items,
      page_sizeOf [("country", "lesotho")] = some ps ∧
      orderedUsers exDB [("country", "lesotho")] = .ok sorted ∧
      get_page sorted ps 1 = .ok items ∧
      serializeUsers exDB items = .ok [exUserJson] ∧
      ∀ u ∈ items, ∀ kv ∈ filtersOf [("country", "lesotho")],
        ∃ pred, loopPred exDB kv.1 kv.2 = .ok pred ∧ pred u = true) ∧
    (∀ w n, pyInt w = some n →
      loopPred exDB "address_id" w = .ok (fun u => u.address == n) ∧
      loopPred exDB "relationship_id" w =
        .ok (fun u => exDB.relationships.any fun r => r.appuser == u.id && r.id == n) ∧
      loopPred exDB "id" w = .ok (fun u => u.id == n) ∧
      loopPred exDB "points" w =
        .ok (fun u => (relsOf exDB u).any fun r => r.points == n)) ∧
    (∀ w,
      loopPred exDB "first_name" w = .ok (fun u => iexactStr u.first_name w) ∧
      loopPred exDB "street" w =
        .ok (fun u => (addrsOf exDB u).any fun a => iexactStr a.street w)) :=
  C7_filter_routing exDB [("country", "lesotho")] 1 1 1 [exUserJson] rfl

/-! ## Claim C9: serialized shape -/

/-- Claim C9: serializing a user whose address row exists yields a nested
object with the identifier and every scalar AppUser field under its model
name (the address foreign key appears as the nested address object), the
nested address object carries address_id and every scalar Address field,
and customer_relationships holds exactly one nested object per
CustomerRelationship referencing the user, each with relationship_id and
every scalar Relationship field; no field of any schema is omitted or
renamed. -/
theorem C9_serializer (db : DB) (u : AppUser) (a : Address)
    (hfind : db.addresses.find? (fun x => x.id == u.address) = some a) :
    ∃ out, serializeUser db u = .ok out ∧
      out = .obj
        [("id", .i u.id), ("first_name", .s u.first_name),
         ("last_name", .s u.last_name), ("gender", .s u.gender),
         ("customer_id", .s u.customer_id), ("phone_number", .s u.phone_number),
         ("created", .dt u.created), ("birthday", .date u.birthday),
         ("last_updated", .dt u.last_updated),
         ("address", serializeAddress a),
         ("customer_relationships", .arr ((relsOf db u).map serializeRel))] ∧
      jvalKeys out =
        appUserAttrs.erase "address" ++ ["address", "customer_relationships"] ∧
      jvalKeys (serializeAddress a) = "address_id" :: addressAttrs.erase "id" ∧
      (∀ r, jvalKeys (serializeRel r) =
        "relationship_id" :: (customerRelationshipAttrs.erase "id").erase "appuser") ∧
      ((relsOf db u).map serializeRel).length = (relsOf db u).length ∧
      relsOf db u = db.relationships.filter fun r => r.appuser == u.id := by
  refine ⟨_, ?_, rfl, ?_, rfl, fun r => rfl, by simp, rfl⟩
  · unfold serializeUser
    rw [hfind]
  · rfl

/-- Witness for C9 at the example user and address. -/
theorem C9_serializer_witness :
    ∃ out, serializeUser exDB exUser = .ok out ∧
      out = .obj
        [("id", .i exUser.id), ("first_name", .s exUser.first_name),
         ("last_name", .s exUser.last_name), ("gender", .s exUser.gender),
         ("customer_id", .s exUser.customer_id), ("phone_number", .s exUser.phone_number),
         ("created", .dt exUser.created), ("birthday", .date exUser.birthday),
         ("last_updated", .dt exUser.last_updated),
         ("address", serializeAddress exAddress),
         ("customer_relationships", .arr ((relsOf exDB exUser).map serializeRel))] ∧
      jvalKeys out =
        appUserAttrs.erase "address" ++ ["address", "customer_relationships"] ∧
      jvalKeys (serializeAddress exAddress) = "address_id" :: addressAttrs.erase "id" ∧
      (∀ r, jvalKeys (serializeRel r) =
        "relationship_id" :: (customerRelationshipAttrs.erase "id").erase "appuser") ∧
      ((relsOf exDB exUser).map serializeRel).length = (relsOf exDB exUser).length ∧
      relsOf exDB exUser = exDB.relationships.filter fun r => r.appuser == exUser.id :=
  C9_serializer exDB exUser exAddress rfl

end LoyaltyApp
